import Mathlib

/-!
Shallow embedding of the CRM routing core (`app/services.py` together with the
ORM tables declared in `app/schemas.py`).

The database session is modelled as an explicit state value `DB` holding the
rows of the five tables as lists; SQLAlchemy queries become list operations
(`filter`/`first`/`count` become `List.filter`/`List.find?`/`List.length`).
The process-wide random source used by `choose_operator_weighted` is made an
explicit parameter: a natural number `r` (the index drawn by `random.choice`)
and a rational `x` (the value `random() * total` fed to the bisection of
`random.choices`).  Float weights are modelled as rationals.
-/

namespace CrmRouting

/-- Row of the `leads` table (`app/schemas.py`, class `Lead`); nullable
columns are `Option`s. -/
structure Lead where
  id : Nat
  external_id : Option String := none
  phone : Option String := none
  email : Option String := none
deriving Repr, DecidableEq

/-- Row of the `operators` table (`app/schemas.py`, class `Operator`). -/
structure Operator where
  id : Nat
  name : String := ""
  is_active : Bool := true
  max_concurrent : Nat := 5
deriving Repr, DecidableEq

/-- Row of the `sources` table (`app/schemas.py`, class `Source`). -/
structure Source where
  id : Nat
  code : String
  name : String := ""
  description : Option String := none
deriving Repr, DecidableEq

/-- Row of the `operator_source_weights` table (`app/schemas.py`,
class `OperatorSourceWeight`); the float weight is modelled as a rational. -/
structure OperatorSourceWeight where
  operator_id : Nat
  source_id : Nat
  weight : Rat := 0
deriving Repr, DecidableEq

/-- Opaque JSON payload of a contact, modelled as an association list. -/
abbrev Payload := List (String × String)

/-- Row of the `contacts` table (`app/schemas.py`, class `Contact`).
`operator_id` and `payload` are nullable columns. -/
structure Contact where
  id : Nat
  lead_id : Nat
  source_id : Nat
  operator_id : Option Nat := none
  status : String := "new"
  payload : Option Payload := none
deriving Repr, DecidableEq

/-- The database state seen by one synchronous session: the five tables plus
the autoincrement counters for the two tables the core writes to. -/
structure DB where
  leads : List Lead := []
  operators : List Operator := []
  sources : List Source := []
  weights : List OperatorSourceWeight := []
  contacts : List Contact := []
  nextLeadId : Nat := 1
  nextContactId : Nat := 1
deriving Repr, DecidableEq

/-- Python truthiness of an optional string argument (`if external_id:`,
`if not lead and phone:` ...): `None` and `""` are falsy. -/
def truthy : Option String → Bool
  | none => false
  | some s => s != ""

/-- The lookup chain of `LeadService.find_or_create_lead` (`app/services.py`
lines 37-48): match by `external_id`, else by `phone`, else by `email`, each
key consulted only when its argument is truthy, and a later key never
overriding an earlier match (`if not lead and ...`). -/
def leadLookup (db : DB) (external_id phone email : Option String) :
    Option Lead :=
  match (if truthy external_id then
           db.leads.find? (fun l => l.external_id == external_id)
         else none) with
  | some l => some l
  | none =>
    match (if truthy phone then db.leads.find? (fun l => l.phone == phone)
           else none) with
    | some l => some l
    | none =>
      if truthy email then db.leads.find? (fun l => l.email == email)
      else none

/-- The fresh row inserted by `LeadService.find_or_create_lead` when the
lookup chain finds nothing (`app/services.py` lines 51-55): the given fields
are stored as passed, absent ones as null. -/
def newLeadRow (db : DB) (external_id phone email : Option String) : Lead :=
  { id := db.nextLeadId, external_id := external_id, phone := phone,
    email := email }

/-- `LeadService.find_or_create_lead` (`app/services.py` lines 22-65): return
the first lead matched by the lookup chain, or insert and return a new lead
carrying the given fields.  Returns the lead together with the updated
session. -/
def find_or_create_lead (db : DB) (external_id phone email : Option String) :
    Lead × DB :=
  match leadLookup db external_id phone email with
  | some lead => (lead, db)
  | none =>
    (newLeadRow db external_id phone email,
     { db with leads := db.leads ++ [newLeadRow db external_id phone email],
               nextLeadId := db.nextLeadId + 1 })

/-- A contact is "open" when its status is in `["assigned", "in_progress"]`
(the filter of `get_operator_load`). -/
def isOpenContact (c : Contact) : Bool :=
  c.status == "assigned" || c.status == "in_progress"

/-- `OperatorService.get_operator_load` (`app/services.py` lines 73-88):
count of contacts with the given operator id and open status. -/
def get_operator_load (db : DB) (operator_id : Nat) : Nat :=
  (db.contacts.filter
    (fun c => c.operator_id == some operator_id && isOpenContact c)).length

/-- `OperatorService.eligible_operators_for_source` (`app/services.py` lines
90-119): operator ids linked to the source through the weight table; of the
operators with those ids, keep the active ones whose load is strictly below
`max_concurrent`. -/
def eligible_operators_for_source (db : DB) (source : Source) :
    List Operator :=
  let links := db.weights.filter (fun w => w.source_id == source.id)
  let operator_ids := links.map (fun w => w.operator_id)
  if operator_ids.isEmpty then []
  else
    let ops := db.operators.filter (fun op => operator_ids.contains op.id)
    ops.filter
      (fun op =>
        op.is_active && decide (get_operator_load db op.id < op.max_concurrent))

/-- `OperatorService.get_weights_for_source` (`app/services.py` lines
121-134): the `{operator_id: weight}` dict, modelled as the underlying
association list in row order (a later entry shadows an earlier one, as in a
Python dict comprehension). -/
def get_weights_for_source (db : DB) (source : Source) : List (Nat × Rat) :=
  (db.weights.filter (fun w => w.source_id == source.id)).map
    (fun w => (w.operator_id, w.weight))

/-- Dict lookup `weights.get(op.id, 0)`: the binding of the last matching
entry (later dict insertions overwrite earlier ones), defaulting to 0. -/
def resolvedWeight (rows : List (Nat × Rat)) (operator_id : Nat) : Rat :=
  match rows.reverse.find? (fun p => p.1 == operator_id) with
  | some p => p.2
  | none => 0

/-- The bisection performed by `random.choices(operators, weights=probs, k=1)`
on the cumulative weights, with the high bound `len - 1`: the first index
whose cumulative weight strictly exceeds `x`, clamped to the last index. -/
def cumIdx : List Rat → Rat → Nat
  | [], _ => 0
  | [_], _ => 0
  | w :: ws, x => if x < w then 0 else cumIdx ws (x - w) + 1

/-- The value `total = sum(ops_and_weights.values())` of
`choose_operator_weighted`: the dict `ops_and_weights` is keyed by operator
id, so the resolved weights are summed over the deduplicated id list. -/
def selectionTotal (eligible : List Operator) (weights : List (Nat × Rat)) :
    Rat :=
  (((eligible.map (fun op => op.id)).dedup).map (resolvedWeight weights)).sum

/-- The normalized probabilities `probs` of `choose_operator_weighted`. -/
def selectionProbs (eligible : List Operator) (weights : List (Nat × Rat)) :
    List Rat :=
  eligible.map
    (fun op => resolvedWeight weights op.id / selectionTotal eligible weights)

/-- `OperatorService.choose_operator_weighted` (`app/services.py` lines
136-158).  `r` models the draw of `random.choice` (an index into `eligible`)
and `x` the value `random() * total` consumed by the bisection of
`random.choices`. -/
def choose_operator_weighted (r : Nat) (x : Rat) (eligible : List Operator)
    (weights : List (Nat × Rat)) : Option Operator :=
  if hne : eligible.isEmpty then none
  else
    if selectionTotal eligible weights ≤ 0 then
      some (eligible.get ⟨r % eligible.length,
        Nat.mod_lt _ (List.length_pos.mpr (by simpa [List.isEmpty_iff] using hne))⟩)
    else
      some (eligible.get ⟨cumIdx (selectionProbs eligible weights) x % eligible.length,
        Nat.mod_lt _ (List.length_pos.mpr (by simpa [List.isEmpty_iff] using hne))⟩)

/-- Python `payload or {}`: `None` and the empty dict are falsy and replaced
by a fresh empty dict. -/
def payloadOrEmpty : Option Payload → Payload
  | none => []
  | some p => if p.isEmpty then [] else p

/-- `ContactService.create_contact` (`app/services.py` lines 166-194):
insert a contact row with `status = "assigned"` exactly when an operator was
passed, `operator_id` taken from it, and `payload or {}` stored. -/
def create_contact (db : DB) (lead : Lead) (source : Source)
    (operator : Option Operator) (payload : Option Payload) : Contact × DB :=
  let contact : Contact :=
    { id := db.nextContactId,
      lead_id := lead.id,
      source_id := source.id,
      operator_id := match operator with
                     | some op => some op.id
                     | none => none,
      status := match operator with
                | some _ => "assigned"
                | none => "new",
      payload := some (payloadOrEmpty payload) }
  (contact,
   { db with contacts := db.contacts ++ [contact],
             nextContactId := db.nextContactId + 1 })

/-- The typed failure raised at `app/services.py` line 232: the only raise
site of the routing path, a `ValueError` whose message names the missing
source code. -/
inductive RouteError where
  | sourceNotFound (code : String)
deriving Repr, DecidableEq

/-- `RoutingService.route_and_create_contact` (`app/services.py` lines
202-248): resolve/create the lead, look the source up by code (`first()`),
fail when absent, otherwise select an operator among the eligible ones and
insert the contact.  Returns the outcome together with the session state as
it persists after the call. -/
def route_and_create_contact (db : DB) (external_id phone email : Option String)
    (source_code : String) (payload : Option Payload) (r : Nat) (x : Rat) :
    Except RouteError Contact × DB :=
  let resolved := find_or_create_lead db external_id phone email
  let lead := resolved.1
  let db1 := resolved.2
  match db1.sources.find? (fun s => s.code == source_code) with
  | none => (Except.error (RouteError.sourceNotFound source_code), db1)
  | some source =>
    let eligible := eligible_operators_for_source db1 source
    let weights := get_weights_for_source db1 source
    let operator := choose_operator_weighted r x eligible weights
    let created := create_contact db1 lead source operator payload
    (Except.ok created.1, created.2)

/-- One inbound routing request: the caller-supplied arguments of
`route_and_create_contact` together with the two random draws consumed by
the selection step. -/
structure RouteInput where
  external_id : Option String := none
  phone : Option String := none
  email : Option String := none
  source_code : String
  payload : Option Payload := none
  r : Nat := 0
  x : Rat := 0
deriving Repr, DecidableEq

/-- State reached after serving a routing request (the session state persists
whether the request succeeded or raised). -/
def routeStep (db : DB) (i : RouteInput) : DB :=
  (route_and_create_contact db i.external_id i.phone i.email i.source_code
    i.payload i.r i.x).2

/-- State reached after serving a sequence of routing requests one after the
other. -/
def routeSeq (db : DB) (is : List RouteInput) : DB :=
  is.foldl routeStep db

/-! Concrete states used to exercise the definitions. -/

/-- A source with code `"tg"`. -/
def sampleSource : Source := { id := 1, code := "tg" }

/-- An operator with capacity 1. -/
def opA : Operator := { id := 10, name := "A", max_concurrent := 1 }

/-- An operator with capacity 5. -/
def opB : Operator := { id := 11, name := "B", max_concurrent := 5 }

/-- A state with one source and two linked operators. -/
def sampleDB : DB :=
  { operators := [opA, opB], sources := [sampleSource],
    weights := [{ operator_id := 10, source_id := 1, weight := 1 },
                { operator_id := 11, source_id := 1, weight := 1 }] }

/-- A state with one source and no operators. -/
def bareDB : DB := { sources := [sampleSource] }

/-- The fully empty state. -/
def emptyDB : DB := {}

/-- A state holding a lead whose phone column is the empty string. -/
def emptyPhoneDB : DB :=
  { leads := [{ id := 7, phone := some "" }], nextLeadId := 8 }

/-- A state with a single zero-capacity operator linked to the source. -/
def zeroCapDB : DB :=
  { operators := [{ id := 5, name := "Z", max_concurrent := 0 }],
    sources := [sampleSource],
    weights := [{ operator_id := 5, source_id := 1, weight := 2 }] }

/-! ### Helper lemmas -/

/-- Lead resolution touches only the `leads` table and its counter. -/
theorem find_or_create_lead_tables (db : DB) (e p m : Option String) :
    ((find_or_create_lead db e p m).2).operators = db.operators ∧
    ((find_or_create_lead db e p m).2).sources = db.sources ∧
    ((find_or_create_lead db e p m).2).weights = db.weights ∧
    ((find_or_create_lead db e p m).2).contacts = db.contacts := by
  unfold find_or_create_lead
  cases h : leadLookup db e p m <;> simp [h]

/-- The operator load only reads the `contacts` table. -/
theorem get_operator_load_congr (db db2 : DB) (h : db2.contacts = db.contacts)
    (i : Nat) : get_operator_load db2 i = get_operator_load db i := by
  simp [get_operator_load, h]

/-- Eligibility only reads the `weights`, `operators` and `contacts` tables. -/
theorem eligible_congr (db db2 : DB) (s : Source)
    (hw : db2.weights = db.weights) (ho : db2.operators = db.operators)
    (hc : db2.contacts = db.contacts) :
    eligible_operators_for_source db2 s = eligible_operators_for_source db s := by
  simp [eligible_operators_for_source, get_operator_load, hw, ho, hc]

/-- Whatever the random draws, a selected operator is a member of the
eligible list. -/
theorem choose_mem (r : Nat) (x : Rat) (el : List Operator)
    (w : List (Nat × Rat)) (op : Operator)
    (h : choose_operator_weighted r x el w = some op) : op ∈ el := by
  unfold choose_operator_weighted at h
  split at h
  · exact absurd h (by simp)
  · split at h <;>
      (injection h with h2; exact h2 ▸ List.get_mem _ _ _)

/-- Selection never returns `none` on a non-empty eligible list. -/
theorem choose_isSome (r : Nat) (x : Rat) (el : List Operator)
    (w : List (Nat × Rat)) (hne : el ≠ []) :
    ∃ op, choose_operator_weighted r x el w = some op := by
  unfold choose_operator_weighted
  split
  · rename_i hemp
    exact absurd (List.isEmpty_iff.mp hemp) hne
  · split <;> exact ⟨_, rfl⟩

/-- Membership in the eligible list, unfolded to the three conditions the
source imposes: a weight row links the operator to the source, the operator
is active, and its open load is strictly below its capacity. -/
theorem mem_eligible (db : DB) (s : Source) (op : Operator) :
    op ∈ eligible_operators_for_source db s ↔
      op ∈ db.operators ∧
      (∃ w ∈ db.weights, w.source_id = s.id ∧ w.operator_id = op.id) ∧
      op.is_active = true ∧
      get_operator_load db op.id < op.max_concurrent := by
  simp only [eligible_operators_for_source]
  split
  · rename_i hemp
    rw [List.isEmpty_iff, List.map_eq_nil_iff, List.filter_eq_nil_iff] at hemp
    simp only [List.not_mem_nil, false_iff]
    rintro ⟨-, ⟨w, hw, hsrc, -⟩, -, -⟩
    exact absurd (by simp [hsrc]) (hemp w hw)
  · simp only [List.mem_filter, Bool.and_eq_true, decide_eq_true_eq,
      List.mem_map, beq_iff_eq]
    constructor
    · rintro ⟨⟨hmem, hcont⟩, hact, hload⟩
      refine ⟨hmem, ?_, hact, hload⟩
      have := (List.elem_iff (α := Nat)).mp hcont
      rcases List.mem_map.mp this with ⟨w, hw, hwid⟩
      rcases List.mem_filter.mp hw with ⟨hw2, hsrc⟩
      exact ⟨w, hw2, by simpa using hsrc, hwid⟩
    · rintro ⟨hmem, ⟨w, hw, hsrc, hwid⟩, hact, hload⟩
      refine ⟨⟨hmem, ?_⟩, hact, hload⟩
      exact (List.elem_iff (α := Nat)).mpr
        (List.mem_map.mpr ⟨w, List.mem_filter.mpr ⟨hw, by simp [hsrc]⟩, hwid⟩)

/-- The lead table after resolution: unchanged on a match, extended by
exactly the one new row otherwise. -/
theorem find_or_create_lead_leads (db : DB) (e p m : Option String) :
    ((find_or_create_lead db e p m).2).leads = db.leads ∨
    ((find_or_create_lead db e p m).2).leads =
      db.leads ++ [newLeadRow db e p m] := by
  unfold find_or_create_lead
  cases h : leadLookup db e p m <;> simp [h]

/-- When no source row carries the requested code, routing returns the
typed failure and the state left by lead resolution. -/
theorem route_sourceNotFound_state (db : DB) (e p m : Option String)
    (sc : String) (payload : Option Payload) (r : Nat) (x : Rat)
    (hfind : ((find_or_create_lead db e p m).2).sources.find?
        (fun s => s.code == sc) = none) :
    route_and_create_contact db e p m sc payload r x =
      (Except.error (RouteError.sourceNotFound sc),
       (find_or_create_lead db e p m).2) := by
  simp only [route_and_create_contact, hfind]

/-- When a source row with the requested code is found, routing returns the
contact inserted by `create_contact` for the chosen operator. -/
theorem route_ok_eq (db : DB) (e p m : Option String) (sc : String)
    (payload : Option Payload) (r : Nat) (x : Rat) (s : Source)
    (hfind : ((find_or_create_lead db e p m).2).sources.find?
        (fun s2 => s2.code == sc) = some s) :
    route_and_create_contact db e p m sc payload r x =
      (Except.ok (create_contact ((find_or_create_lead db e p m).2)
          ((find_or_create_lead db e p m).1) s
          (choose_operator_weighted r x
            (eligible_operators_for_source ((find_or_create_lead db e p m).2) s)
            (get_weights_for_source ((find_or_create_lead db e p m).2) s))
          payload).1,
       (create_contact ((find_or_create_lead db e p m).2)
          ((find_or_create_lead db e p m).1) s
          (choose_operator_weighted r x
            (eligible_operators_for_source ((find_or_create_lead db e p m).2) s)
            (get_weights_for_source ((find_or_create_lead db e p m).2) s))
          payload).2) := by
  simp only [route_and_create_contact, hfind]

/-- The lookup chain resolves by `external_id` when that key is truthy and
matches. -/
theorem leadLookup_external (db : DB) (e p m : Option String) (l : Lead)
    (he : truthy e = true)
    (hf : db.leads.find? (fun l2 => l2.external_id == e) = some l) :
    leadLookup db e p m = some l := by
  simp [leadLookup, he, hf]

/-- The lookup chain falls through to `phone` when the `external_id` key is
falsy or unmatched. -/
theorem leadLookup_phone (db : DB) (e p m : Option String) (l : Lead)
    (he : truthy e = false ∨
      db.leads.find? (fun l2 => l2.external_id == e) = none)
    (hp : truthy p = true)
    (hf : db.leads.find? (fun l2 => l2.phone == p) = some l) :
    leadLookup db e p m = some l := by
  rcases he with he | he <;> simp [leadLookup, he, hp, hf]

/-- The lookup chain falls through to `email` when the two earlier keys are
falsy or unmatched. -/
theorem leadLookup_email (db : DB) (e p m : Option String) (l : Lead)
    (he : truthy e = false ∨
      db.leads.find? (fun l2 => l2.external_id == e) = none)
    (hp : truthy p = false ∨ db.leads.find? (fun l2 => l2.phone == p) = none)
    (hm : truthy m = true)
    (hf : db.leads.find? (fun l2 => l2.email == m) = some l) :
    leadLookup db e p m = some l := by
  rcases he with he | he <;> rcases hp with hp | hp <;>
    simp [leadLookup, he, hp, hm, hf]

/-- The lookup chain misses when every key is falsy or unmatched. -/
theorem leadLookup_none (db : DB) (e p m : Option String)
    (he : truthy e = false ∨
      db.leads.find? (fun l2 => l2.external_id == e) = none)
    (hp : truthy p = false ∨ db.leads.find? (fun l2 => l2.phone == p) = none)
    (hm : truthy m = false ∨ db.leads.find? (fun l2 => l2.email == m) = none) :
    leadLookup db e p m = none := by
  rcases he with he | he <;> rcases hp with hp | hp <;>
    rcases hm with hm | hm <;> simp [leadLookup, he, hp, hm]

/-- Resolution returns a matched lead unchanged together with the unchanged
session. -/
theorem find_or_create_lead_of_lookup_some (db : DB) (e p m : Option String)
    (l : Lead) (h : leadLookup db e p m = some l) :
    find_or_create_lead db e p m = (l, db) := by
  unfold find_or_create_lead
  rw [h]

/-- Resolution inserts the new row exactly when the lookup chain misses. -/
theorem find_or_create_lead_of_lookup_none (db : DB) (e p m : Option String)
    (h : leadLookup db e p m = none) :
    find_or_create_lead db e p m =
      (newLeadRow db e p m,
       { db with leads := db.leads ++ [newLeadRow db e p m],
                 nextLeadId := db.nextLeadId + 1 }) := by
  unfold find_or_create_lead
  rw [h]

/-- The lookup chain only reads the `leads` table. -/
theorem leadLookup_congr (db db2 : DB) (e p m : Option String)
    (h : db2.leads = db.leads) :
    leadLookup db2 e p m = leadLookup db e p m := by
  simp [leadLookup, h]

/-- Inversion of a missed lookup: every truthy key found no row. -/
theorem leadLookup_none_inv (db : DB) (e p m : Option String)
    (h : leadLookup db e p m = none) :
    (truthy e = true →
      db.leads.find? (fun l2 => l2.external_id == e) = none) ∧
    (truthy p = true → db.leads.find? (fun l2 => l2.phone == p) = none) ∧
    (truthy m = true → db.leads.find? (fun l2 => l2.email == m) = none) := by
  refine ⟨fun he => ?_, fun hp => ?_, fun hm => ?_⟩
  · cases hf : db.leads.find? (fun l2 => l2.external_id == e) with
    | none => rfl
    | some l => rw [leadLookup_external db e p m l he hf] at h; exact absurd h (by simp)
  · cases hf : db.leads.find? (fun l2 => l2.phone == p) with
    | none => rfl
    | some l =>
      cases he : truthy e with
      | false =>
        rw [leadLookup_phone db e p m l (Or.inl he) hp hf] at h
        exact absurd h (by simp)
      | true =>
        cases hfe : db.leads.find? (fun l2 => l2.external_id == e) with
        | none =>
          rw [leadLookup_phone db e p m l (Or.inr hfe) hp hf] at h
          exact absurd h (by simp)
        | some l2 =>
          rw [leadLookup_external db e p m l2 he hfe] at h
          exact absurd h (by simp)
  · cases hf : db.leads.find? (fun l2 => l2.email == m) with
    | none => rfl
    | some l =>
      have he : truthy e = false ∨
          db.leads.find? (fun l2 => l2.external_id == e) = none := by
        cases he2 : truthy e with
        | false => exact Or.inl rfl
        | true =>
          cases hfe : db.leads.find? (fun l2 => l2.external_id == e) with
          | none => exact Or.inr rfl
          | some l2 =>
            rw [leadLookup_external db e p m l2 he2 hfe] at h
            exact absurd h (by simp)
      have hp : truthy p = false ∨
          db.leads.find? (fun l2 => l2.phone == p) = none := by
        cases hp2 : truthy p with
        | false => exact Or.inl rfl
        | true =>
          cases hfp : db.leads.find? (fun l2 => l2.phone == p) with
          | none => exact Or.inr rfl
          | some l2 =>
            rw [leadLookup_phone db e p m l2 he hp2 hfp] at h
            exact absurd h (by simp)
      rw [leadLookup_email db e p m l he hp hm hf] at h
      exact absurd h (by simp)

/-- After one resolution with at least one truthy key, any state holding the
same leads table resolves the same key tuple to the very lead the first
resolution returned. -/
theorem leadLookup_after (db : DB) (e p m : Option String)
    (hkey : truthy e = true ∨ truthy p = true ∨ truthy m = true)
    (db2 : DB)
    (hleads : db2.leads = ((find_or_create_lead db e p m).2).leads) :
    leadLookup db2 e p m = some ((find_or_create_lead db e p m).1) := by
  cases hl : leadLookup db e p m with
  | some l =>
    rw [find_or_create_lead_of_lookup_some db e p m l hl] at hleads ⊢
    rw [leadLookup_congr db db2 e p m hleads, hl]
  | none =>
    rw [find_or_create_lead_of_lookup_none db e p m hl] at hleads ⊢
    obtain ⟨hfe, hfp, hfm⟩ := leadLookup_none_inv db e p m hl
    cases he : truthy e with
    | true =>
      apply leadLookup_external db2 e p m _ he
      rw [hleads, List.find?_append, hfe he]
      simp [newLeadRow]
    | false =>
      cases hp : truthy p with
      | true =>
        apply leadLookup_phone db2 e p m _ (Or.inl he) hp
        rw [hleads, List.find?_append, hfp hp]
        simp [newLeadRow]
      | false =>
        have hm : truthy m = true := by
          rcases hkey with h | h | h
          · exact absurd h (by simp [he])
          · exact absurd h (by simp [hp])
          · exact h
        apply leadLookup_email db2 e p m _ (Or.inl he) (Or.inl hp) hm
        rw [hleads, List.find?_append, hfm hm]
        simp [newLeadRow]

/-- Routing leaves the leads table as lead resolution left it, and never
touches the operators, sources or weights tables. -/
theorem route_tables (db : DB) (e p m : Option String) (sc : String)
    (pl : Option Payload) (r : Nat) (x : Rat) :
    ((route_and_create_contact db e p m sc pl r x).2).leads =
      ((find_or_create_lead db e p m).2).leads ∧
    ((route_and_create_contact db e p m sc pl r x).2).operators =
      db.operators ∧
    ((route_and_create_contact db e p m sc pl r x).2).sources = db.sources ∧
    ((route_and_create_contact db e p m sc pl r x).2).weights = db.weights := by
  obtain ⟨hop, hsrc, hw, hcon⟩ := find_or_create_lead_tables db e p m
  cases hfind : ((find_or_create_lead db e p m).2).sources.find?
      (fun s => s.code == sc) with
  | none =>
    rw [route_sourceNotFound_state db e p m sc pl r x hfind]
    exact ⟨rfl, hop, hsrc, hw⟩
  | some s =>
    rw [route_ok_eq db e p m sc pl r x s hfind]
    refine ⟨by simp [create_contact], ?_, ?_, ?_⟩ <;>
      simp [create_contact, hop, hsrc, hw]

/-- Inserting an unassigned contact changes no operator's load. -/
theorem create_contact_load_none (db : DB) (lead : Lead) (s : Source)
    (pl : Option Payload) (i : Nat) :
    get_operator_load ((create_contact db lead s none pl).2) i =
      get_operator_load db i := by
  simp [create_contact, get_operator_load, List.filter_append, isOpenContact]

/-- Inserting an assigned contact raises the assignee's load by one and no
other operator's. -/
theorem create_contact_load_some (db : DB) (lead : Lead) (s : Source)
    (op : Operator) (pl : Option Payload) (i : Nat) :
    get_operator_load ((create_contact db lead s (some op) pl).2) i =
      get_operator_load db i + (if op.id = i then 1 else 0) := by
  by_cases hid : op.id = i <;>
    simp [create_contact, get_operator_load, List.filter_append,
      isOpenContact, hid]

/-- One routing call preserves the per-operator capacity bound, given unique
operator ids. -/
theorem route_preserves_capacity (db : DB) (e p m : Option String)
    (sc : String) (pl : Option Payload) (r : Nat) (x : Rat)
    (hids : (db.operators.map (fun o => o.id)).Nodup)
    (hinv : ∀ op2 ∈ db.operators,
      get_operator_load db op2.id ≤ op2.max_concurrent) :
    ∀ op2 ∈ db.operators,
      get_operator_load ((route_and_create_contact db e p m sc pl r x).2)
        op2.id ≤ op2.max_concurrent := by
  intro op2 hop2
  obtain ⟨hopsEq, hsrcEq, hwEq, hconEq⟩ := find_or_create_lead_tables db e p m
  cases hfind : ((find_or_create_lead db e p m).2).sources.find?
      (fun s => s.code == sc) with
  | none =>
    rw [route_sourceNotFound_state db e p m sc pl r x hfind,
      get_operator_load_congr db ((find_or_create_lead db e p m).2) hconEq]
    exact hinv op2 hop2
  | some s =>
    rw [route_ok_eq db e p m sc pl r x s hfind]
    cases hch : choose_operator_weighted r x
        (eligible_operators_for_source ((find_or_create_lead db e p m).2) s)
        (get_weights_for_source ((find_or_create_lead db e p m).2) s) with
    | none =>
      rw [create_contact_load_none,
        get_operator_load_congr db ((find_or_create_lead db e p m).2) hconEq]
      exact hinv op2 hop2
    | some opSel =>
      have hmem := choose_mem _ _ _ _ _ hch
      rw [mem_eligible] at hmem
      obtain ⟨hmemOps, -, -, hlt⟩ := hmem
      rw [hopsEq] at hmemOps
      rw [create_contact_load_some]
      by_cases hid : opSel.id = op2.id
      · rw [if_pos hid]
        have hEq : op2 = opSel :=
          List.inj_on_of_nodup_map hids hop2 hmemOps hid.symm
        subst hEq
        rw [hid] at hlt
        exact Nat.succ_le_of_lt hlt
      · rw [if_neg hid, Nat.add_zero,
          get_operator_load_congr db ((find_or_create_lead db e p m).2) hconEq]
        exact hinv op2 hop2

/-- One routing step leaves the operators table unchanged. -/
theorem routeStep_operators (db : DB) (i : RouteInput) :
    (routeStep db i).operators = db.operators :=
  (route_tables db i.external_id i.phone i.email i.source_code i.payload
    i.r i.x).2.1

/-! ### Claims -/

/-- C7: for every source, `eligible_operators_for_source` returns exactly the
operators that are linked to the source by a weight row, are active, and
whose open-contact count (statuses `assigned`/`in_progress` only) is strictly
below `max_concurrent`; when the source has no weight rows the result is the
empty list, not an error. -/
theorem C7_eligible_operators_exact (db : DB) (s : Source) (op : Operator) :
    (op ∈ eligible_operators_for_source db s ↔
      op ∈ db.operators ∧
      (∃ w ∈ db.weights, w.source_id = s.id ∧ w.operator_id = op.id) ∧
      op.is_active = true ∧
      get_operator_load db op.id < op.max_concurrent) ∧
    ((∀ w ∈ db.weights, w.source_id ≠ s.id) →
      eligible_operators_for_source db s = []) := by
  refine ⟨mem_eligible db s op, fun hnone => ?_⟩
  have hfil : db.weights.filter (fun w => w.source_id == s.id) = [] :=
    List.filter_eq_nil_iff.mpr (fun w hw => by simpa using hnone w hw)
  simp [eligible_operators_for_source, hfil]

/-- Witness for C7 on the concrete sample state: operator `opB` is eligible
for the source, and a source without weight rows has no eligible operators. -/
theorem C7_witness :
    opB ∈ eligible_operators_for_source sampleDB sampleSource ∧
    eligible_operators_for_source bareDB sampleSource = [] := by
  constructor
  · exact (C7_eligible_operators_exact sampleDB sampleSource opB).1.mpr
      (by decide)
  · exact (C7_eligible_operators_exact bareDB sampleSource opB).2 (by decide)

/-- C8: on a non-empty eligible list, weighted selection always returns some
member of the list, whatever the weight mapping (in particular when every
resolved weight is zero or the sum is non-positive) and whatever the random
draws. -/
theorem C8_selection_never_none (r : Nat) (x : Rat)
    (eligible : List Operator) (weights : List (Nat × Rat))
    (hne : eligible ≠ []) :
    ∃ op ∈ eligible,
      choose_operator_weighted r x eligible weights = some op := by
  obtain ⟨op, hop⟩ := choose_isSome r x eligible weights hne
  exact ⟨op, choose_mem r x eligible weights op hop, hop⟩

/-- Witness for C8: with an empty weight mapping (resolved sum 0) the
selection still returns a member of the eligible list. -/
theorem C8_witness :
    ∃ op ∈ [opA], choose_operator_weighted 0 0 [opA] [] = some op :=
  C8_selection_never_none 0 0 [opA] [] (by decide)

/-- C3: routing against a code carried by no source row fails with the typed
`sourceNotFound` failure naming that code, and leaves the contacts table
unchanged (no contact is fabricated). -/
theorem C3_unknown_source_fails (db : DB) (e p m : Option String)
    (sc : String) (payload : Option Payload) (r : Nat) (x : Rat)
    (habs : ∀ s ∈ db.sources, s.code ≠ sc) :
    (route_and_create_contact db e p m sc payload r x).1 =
      Except.error (RouteError.sourceNotFound sc) ∧
    (route_and_create_contact db e p m sc payload r x).2.contacts =
      db.contacts := by
  have hsrc := (find_or_create_lead_tables db e p m).2.1
  have hcon := (find_or_create_lead_tables db e p m).2.2.2
  have hfind : ((find_or_create_lead db e p m).2).sources.find?
      (fun s => s.code == sc) = none := by
    rw [hsrc, List.find?_eq_none]
    intro s hs
    simpa using habs s hs
  rw [route_sourceNotFound_state db e p m sc payload r x hfind]
  exact ⟨rfl, hcon⟩

/-- Witness for C3 on the sample state and an unknown code. -/
theorem C3_witness :
    (route_and_create_contact sampleDB (some "z") none none "missing" none
        0 0).1 = Except.error (RouteError.sourceNotFound "missing") ∧
    (route_and_create_contact sampleDB (some "z") none none "missing" none
        0 0).2.contacts = sampleDB.contacts :=
  C3_unknown_source_fails sampleDB (some "z") none none "missing" none 0 0
    (by decide)

/-- Counterexample to C4 as stated: on a failed source lookup the state does
not equal the state before the call — a freshly created Lead row survives
the failure. -/
theorem C4_counterexample :
    (route_and_create_contact emptyDB (some "ext-1") none none "tg" none
        0 0).1 = Except.error (RouteError.sourceNotFound "tg") ∧
    (route_and_create_contact emptyDB (some "ext-1") none none "tg" none
        0 0).2 ≠ emptyDB ∧
    ((route_and_create_contact emptyDB (some "ext-1") none none "tg" none
        0 0).2).leads.length = emptyDB.leads.length + 1 :=
  ⟨rfl, by decide, by decide⟩

/-- C4 (amended): on a failed source lookup no Contact is created and the
contacts, operators, sources and weights tables are unchanged; the leads
table is unchanged or extended by exactly the one Lead row created during
resolution, which persists. -/
theorem C4_no_partial_writes_except_lead (db : DB) (e p m : Option String)
    (sc : String) (payload : Option Payload) (r : Nat) (x : Rat)
    (habs : ∀ s ∈ db.sources, s.code ≠ sc) :
    (route_and_create_contact db e p m sc payload r x).1 =
      Except.error (RouteError.sourceNotFound sc) ∧
    (route_and_create_contact db e p m sc payload r x).2.contacts =
      db.contacts ∧
    (route_and_create_contact db e p m sc payload r x).2.operators =
      db.operators ∧
    (route_and_create_contact db e p m sc payload r x).2.sources =
      db.sources ∧
    (route_and_create_contact db e p m sc payload r x).2.weights =
      db.weights ∧
    (((route_and_create_contact db e p m sc payload r x).2).leads = db.leads ∨
      ((route_and_create_contact db e p m sc payload r x).2).leads =
        db.leads ++ [newLeadRow db e p m]) := by
  obtain ⟨hop, hsrc, hw, hcon⟩ := find_or_create_lead_tables db e p m
  have hfind : ((find_or_create_lead db e p m).2).sources.find?
      (fun s => s.code == sc) = none := by
    rw [hsrc, List.find?_eq_none]
    intro s hs
    simpa using habs s hs
  rw [route_sourceNotFound_state db e p m sc payload r x hfind]
  exact ⟨rfl, hcon, hop, hsrc, hw, find_or_create_lead_leads db e p m⟩

/-- Witness for the amended C4 on the sample state. -/
theorem C4_witness :
    (route_and_create_contact sampleDB none (some "555") none "missing" none
        0 0).1 = Except.error (RouteError.sourceNotFound "missing") ∧
    (route_and_create_contact sampleDB none (some "555") none "missing" none
        0 0).2.contacts = sampleDB.contacts ∧
    (route_and_create_contact sampleDB none (some "555") none "missing" none
        0 0).2.operators = sampleDB.operators ∧
    (route_and_create_contact sampleDB none (some "555") none "missing" none
        0 0).2.sources = sampleDB.sources ∧
    (route_and_create_contact sampleDB none (some "555") none "missing" none
        0 0).2.weights = sampleDB.weights ∧
    (((route_and_create_contact sampleDB none (some "555") none "missing" none
        0 0).2).leads = sampleDB.leads ∨
      ((route_and_create_contact sampleDB none (some "555") none "missing"
        none 0 0).2).leads =
        sampleDB.leads ++ [newLeadRow sampleDB none (some "555") none]) :=
  C4_no_partial_writes_except_lead sampleDB none (some "555") none "missing"
    none 0 0 (by decide)

/-- C2: every contact created by routing has status `"assigned"` exactly when
its operator id is non-null; and when the eligible set for the resolved
source is empty, the created contact has a null operator id and status
`"new"`. -/
theorem C2_status_iff_assigned (db : DB) (e p m : Option String) (sc : String)
    (payload : Option Payload) (r : Nat) (x : Rat) (c : Contact) (db2 : DB)
    (h : route_and_create_contact db e p m sc payload r x =
      (Except.ok c, db2)) :
    (c.status = "assigned" ↔ c.operator_id ≠ none) ∧
    (∀ s, ((find_or_create_lead db e p m).2).sources.find?
        (fun s2 => s2.code == sc) = some s →
      eligible_operators_for_source ((find_or_create_lead db e p m).2) s = [] →
      c.operator_id = none ∧ c.status = "new") := by
  cases hfind : ((find_or_create_lead db e p m).2).sources.find?
      (fun s2 => s2.code == sc) with
  | none =>
    rw [route_sourceNotFound_state db e p m sc payload r x hfind] at h
    simp at h
  | some s0 =>
    rw [route_ok_eq db e p m sc payload r x s0 hfind] at h
    injection h with h1 h2
    injection h1 with h1
    subst h1
    cases hop : choose_operator_weighted r x
        (eligible_operators_for_source ((find_or_create_lead db e p m).2) s0)
        (get_weights_for_source ((find_or_create_lead db e p m).2) s0) with
    | none =>
      constructor
      · simp [create_contact]
      · intro s hs hel
        simp [create_contact]
    | some opSel =>
      constructor
      · simp [create_contact]
      · intro s hs hel
        injection hs with hs
        subst hs
        rw [hel] at hop
        simp [choose_operator_weighted] at hop

/-- Witness for C2: routing on the sample source with no operators creates an
unassigned contact with status `"new"`. -/
theorem C2_witness :
    ({ id := 1, lead_id := 1, source_id := 1, operator_id := none,
       status := "new", payload := some ([] : Payload) } : Contact).operator_id
      = none ∧
    ({ id := 1, lead_id := 1, source_id := 1, operator_id := none,
       status := "new", payload := some ([] : Payload) } : Contact).status
      = "new" :=
  (C2_status_iff_assigned bareDB none none none "tg" none 0 0
      { id := 1, lead_id := 1, source_id := 1, operator_id := none,
        status := "new", payload := some ([] : Payload) }
      ((route_and_create_contact bareDB none none none "tg" none 0 0).2)
      rfl).2 sampleSource rfl rfl

/-- Counterexample to C9 as stated: a routing call with an absent payload
stores the empty object on the created contact, not the supplied null —
the payload column of the created contact differs from the absent input. -/
theorem C9_counterexample :
    (route_and_create_contact bareDB none none none "tg" none 0 0).1 =
      Except.ok { id := 1, lead_id := 1, source_id := 1, operator_id := none,
                  status := "new", payload := some ([] : Payload) } ∧
    some ([] : Payload) ≠ (none : Option Payload) :=
  ⟨rfl, by decide⟩

/-- C9 (amended): a supplied payload is stored verbatim on the created
contact; an absent payload is stored as the empty object. -/
theorem C9_payload_stored (db : DB) (e p m : Option String) (sc : String)
    (payload : Option Payload) (r : Nat) (x : Rat) (c : Contact) (db2 : DB)
    (h : route_and_create_contact db e p m sc payload r x =
      (Except.ok c, db2)) :
    (∀ pl, payload = some pl → c.payload = some pl) ∧
    (payload = none → c.payload = some ([] : Payload)) := by
  cases hfind : ((find_or_create_lead db e p m).2).sources.find?
      (fun s2 => s2.code == sc) with
  | none =>
    rw [route_sourceNotFound_state db e p m sc payload r x hfind] at h
    simp at h
  | some s0 =>
    rw [route_ok_eq db e p m sc payload r x s0 hfind] at h
    injection h with h1 h2
    injection h1 with h1
    subst h1
    constructor
    · rintro pl rfl
      cases pl <;> simp [create_contact, payloadOrEmpty]
    · rintro rfl
      simp [create_contact, payloadOrEmpty]

/-- Witness for the amended C9: a non-empty supplied payload is stored
verbatim. -/
theorem C9_witness :
    ({ id := 1, lead_id := 1, source_id := 1, operator_id := none,
       status := "new", payload := some [("k", "v")] } : Contact).payload =
      some [("k", "v")] :=
  (C9_payload_stored bareDB none none none "tg" (some [("k", "v")]) 0 0
      { id := 1, lead_id := 1, source_id := 1, operator_id := none,
        status := "new", payload := some [("k", "v")] }
      ((route_and_create_contact bareDB none none none "tg"
          (some [("k", "v")]) 0 0).2)
      rfl).1 [("k", "v")] rfl

/-- Counterexample to C5 as stated: a phone key that is provided but empty
(`some ""`) is falsy to the code, so a lead whose phone column holds exactly
that value is not matched — a fresh duplicate lead is created instead of
resolving to the existing one. -/
theorem C5_counterexample :
    emptyPhoneDB.leads.find? (fun l => l.phone == some "") =
      some { id := 7, phone := some "" } ∧
    (find_or_create_lead emptyPhoneDB none (some "") none).1.id = 8 ∧
    ((find_or_create_lead emptyPhoneDB none (some "") none).2).leads.length
      = 2 := by decide

/-- C5 (amended): resolution precedence with first match wins — exact match
on `external_id` if provided and non-empty; else on `phone` if provided and
non-empty; else on `email` if provided and non-empty; a later key never
overrides an earlier match.  When no such key matches, a new lead carrying
the given fields (absent ones null) is inserted; no error is raised even
when all keys are absent or empty. -/
theorem C5_matching_precedence (db : DB) (e p m : Option String) :
    (∀ l, truthy e = true →
      db.leads.find? (fun l2 => l2.external_id == e) = some l →
      find_or_create_lead db e p m = (l, db)) ∧
    (∀ l, (truthy e = false ∨
        db.leads.find? (fun l2 => l2.external_id == e) = none) →
      truthy p = true →
      db.leads.find? (fun l2 => l2.phone == p) = some l →
      find_or_create_lead db e p m = (l, db)) ∧
    (∀ l, (truthy e = false ∨
        db.leads.find? (fun l2 => l2.external_id == e) = none) →
      (truthy p = false ∨ db.leads.find? (fun l2 => l2.phone == p) = none) →
      truthy m = true →
      db.leads.find? (fun l2 => l2.email == m) = some l →
      find_or_create_lead db e p m = (l, db)) ∧
    ((truthy e = false ∨
        db.leads.find? (fun l2 => l2.external_id == e) = none) →
      (truthy p = false ∨ db.leads.find? (fun l2 => l2.phone == p) = none) →
      (truthy m = false ∨ db.leads.find? (fun l2 => l2.email == m) = none) →
      find_or_create_lead db e p m =
        (newLeadRow db e p m,
         { db with leads := db.leads ++ [newLeadRow db e p m],
                   nextLeadId := db.nextLeadId + 1 })) := by
  refine ⟨fun l he hf => ?_, fun l he hp hf => ?_,
    fun l he hp hm hf => ?_, fun he hp hm => ?_⟩
  · exact find_or_create_lead_of_lookup_some db e p m l
      (leadLookup_external db e p m l he hf)
  · exact find_or_create_lead_of_lookup_some db e p m l
      (leadLookup_phone db e p m l he hp hf)
  · exact find_or_create_lead_of_lookup_some db e p m l
      (leadLookup_email db e p m l he hp hm hf)
  · exact find_or_create_lead_of_lookup_none db e p m
      (leadLookup_none db e p m he hp hm)

/-- Witness for the amended C5: an existing lead with a non-empty phone is
resolved by the phone key when the external key is absent, without touching
the session. -/
theorem C5_witness :
    find_or_create_lead
        { leads := [{ id := 3, phone := some "123" }], nextLeadId := 4 }
        none (some "123") none =
      ({ id := 3, phone := some "123" },
       { leads := [{ id := 3, phone := some "123" }], nextLeadId := 4 }) :=
  (C5_matching_precedence
      { leads := [{ id := 3, phone := some "123" }], nextLeadId := 4 }
      none (some "123") none).2.1
    { id := 3, phone := some "123" } (Or.inl rfl) rfl (by decide)

/-- C6: repeating a routing call with the same identifying key (at least one
of the three keys truthy) resolves to the same lead id as the first call and
creates no duplicate lead row. -/
theorem C6_lead_resolution_idempotent (db : DB) (e p m : Option String)
    (sc1 sc2 : String) (pl1 pl2 : Option Payload) (r1 r2 : Nat) (x1 x2 : Rat)
    (hkey : truthy e = true ∨ truthy p = true ∨ truthy m = true) :
    (find_or_create_lead
        ((route_and_create_contact db e p m sc1 pl1 r1 x1).2) e p m).1.id =
      (find_or_create_lead db e p m).1.id ∧
    ((route_and_create_contact
        ((route_and_create_contact db e p m sc1 pl1 r1 x1).2)
        e p m sc2 pl2 r2 x2).2).leads =
      ((route_and_create_contact db e p m sc1 pl1 r1 x1).2).leads := by
  have hleads1 : ((route_and_create_contact db e p m sc1 pl1 r1 x1).2).leads =
      ((find_or_create_lead db e p m).2).leads :=
    (route_tables db e p m sc1 pl1 r1 x1).1
  have hfo := find_or_create_lead_of_lookup_some
    ((route_and_create_contact db e p m sc1 pl1 r1 x1).2) e p m
    ((find_or_create_lead db e p m).1)
    (leadLookup_after db e p m hkey _ hleads1)
  constructor
  · rw [hfo]
  · rw [(route_tables ((route_and_create_contact db e p m sc1 pl1 r1 x1).2)
      e p m sc2 pl2 r2 x2).1, hfo]

/-- Witness for C6 on the sample state: a second routing call with the same
external id resolves to the lead created by the first call and adds no lead
row. -/
theorem C6_witness :
    (find_or_create_lead
        ((route_and_create_contact sampleDB (some "x") none none "tg" none
          0 0).2) (some "x") none none).1.id =
      (find_or_create_lead sampleDB (some "x") none none).1.id ∧
    ((route_and_create_contact
        ((route_and_create_contact sampleDB (some "x") none none "tg" none
          0 0).2) (some "x") none none "tg" none 1 0).2).leads =
      ((route_and_create_contact sampleDB (some "x") none none "tg" none
        0 0).2).leads :=
  C6_lead_resolution_idempotent sampleDB (some "x") none none "tg" "tg"
    none none 0 1 0 0 (Or.inl rfl)

/-- C1: under sequential execution, after any sequence of routing calls from
a state with unique operator ids in which every operator's open-contact
count is within its capacity, every operator's open-contact count (statuses
`assigned`/`in_progress`) still does not exceed its `max_concurrent`: a call
assigns an operator only while its count is strictly below the cap. -/
theorem C1_capacity_never_exceeded (db : DB) (requests : List RouteInput)
    (hids : (db.operators.map (fun o => o.id)).Nodup)
    (hinv : ∀ op ∈ db.operators,
      get_operator_load db op.id ≤ op.max_concurrent) :
    ∀ op ∈ (routeSeq db requests).operators,
      get_operator_load (routeSeq db requests) op.id ≤ op.max_concurrent := by
  induction requests generalizing db with
  | nil => exact hinv
  | cons i is ih =>
    have hstep : ∀ op ∈ (routeStep db i).operators,
        get_operator_load (routeStep db i) op.id ≤ op.max_concurrent := by
      intro op hop
      rw [routeStep_operators] at hop
      exact route_preserves_capacity db i.external_id i.phone i.email
        i.source_code i.payload i.r i.x hids hinv op hop
    have hids2 : ((routeStep db i).operators.map (fun o => o.id)).Nodup := by
      rw [routeStep_operators]; exact hids
    exact ih (routeStep db i) hids2 hstep

/-- Witness for C1: two routed requests on the sample state fill operator A
(capacity 1) and keep its load within the cap. -/
theorem C1_witness :
    get_operator_load
      (routeSeq sampleDB
        [{ source_code := "tg", external_id := some "x" },
         { source_code := "tg", external_id := some "y", r := 1 }])
      opA.id ≤ opA.max_concurrent :=
  C1_capacity_never_exceeded sampleDB
    [{ source_code := "tg", external_id := some "x" },
     { source_code := "tg", external_id := some "y", r := 1 }]
    (by decide) (by decide) opA (by decide)

/-- C10: an operator with `max_concurrent = 0` is never eligible for any
source (its non-negative open count cannot be below 0) and, with unique
operator ids, no routing call ever assigns a contact to it, whatever its
active flag and configured weights. -/
theorem C10_zero_capacity_never_assigned (db : DB) (s : Source)
    (O : Operator) (hO : O ∈ db.operators) (hmax : O.max_concurrent = 0)
    (hids : (db.operators.map (fun o => o.id)).Nodup) :
    O ∉ eligible_operators_for_source db s ∧
    (∀ e p m sc pl r x c db2,
      route_and_create_contact db e p m sc pl r x = (Except.ok c, db2) →
      c.operator_id ≠ some O.id) := by
  constructor
  · intro hmem
    rw [mem_eligible] at hmem
    obtain ⟨-, -, -, hlt⟩ := hmem
    rw [hmax] at hlt
    exact Nat.not_lt_zero _ hlt
  · intro e p m sc pl r x c db2 h
    obtain ⟨hopsEq, hsrcEq, hwEq, hconEq⟩ :=
      find_or_create_lead_tables db e p m
    cases hfind : ((find_or_create_lead db e p m).2).sources.find?
        (fun s2 => s2.code == sc) with
    | none =>
      rw [route_sourceNotFound_state db e p m sc pl r x hfind] at h
      simp at h
    | some s0 =>
      rw [route_ok_eq db e p m sc pl r x s0 hfind] at h
      injection h with h1 h2
      injection h1 with h1
      subst h1
      cases hch : choose_operator_weighted r x
          (eligible_operators_for_source ((find_or_create_lead db e p m).2)
            s0)
          (get_weights_for_source ((find_or_create_lead db e p m).2) s0) with
      | none => simp [create_contact]
      | some opSel =>
        have hmem := choose_mem _ _ _ _ _ hch
        rw [mem_eligible] at hmem
        obtain ⟨hmemOps, -, -, hlt⟩ := hmem
        rw [hopsEq] at hmemOps
        intro hcontra
        have hid : opSel.id = O.id := by
          simpa [create_contact] using hcontra
        have hEq : opSel = O :=
          List.inj_on_of_nodup_map hids hmemOps hO hid
        rw [hEq, hmax] at hlt
        exact Nat.not_lt_zero _ hlt

/-- Witness for C10: the zero-capacity operator of the concrete state is not
eligible for the source it is linked and weighted to. -/
theorem C10_witness :
    ({ id := 5, name := "Z", max_concurrent := 0 } : Operator) ∉
      eligible_operators_for_source zeroCapDB sampleSource :=
  (C10_zero_capacity_never_assigned zeroCapDB sampleSource
      { id := 5, name := "Z", max_concurrent := 0 }
      (by decide) rfl (by decide)).1

end CrmRouting
